import Mathlib

/-!
Shallow embedding of the zkDID proof protocol (src/dist/zkproof.js).

The file `zkproof.js` defines `generateZKProof`, `_generateSignedZKProof`,
`verifyZKProof` and `_verifySignedZKProof`.  The modules it imports
(`./did`, `./credential`, `./circuit`, `js-base64` and the JSON codec of the
host language) are external collaborators; they are represented here as an
environment of injected capabilities, modelled from the spec where noted.
-/

/-- JSON-like value, the closed tagged union the spec prescribes for decoded
field payloads: null, boolean, number, string, sequence, mapping.
Numbers are modelled as integers; no claim depends on non-integral values. -/
inductive Json where
  | null
  | bool (b : Bool)
  | num (n : Int)
  | str (s : String)
  | arr (xs : List Json)
  | obj (kvs : List (String × Json))

/-- FieldMapping: mapping from field name to decoded value, built fresh per
verification.  Represented as an association list in insertion order, the
iteration order of the JavaScript Map built at lines 82-85 of zkproof.js. -/
abbrev FieldMapping := List (String × Json)

/-- Map.get semantics on the association list: the value stored at a key. -/
def mapGet (m : FieldMapping) (k : String) : Option Json :=
  (m.find? (fun kv => kv.1 == k)).map (fun kv => kv.2)

/-- Map.set semantics: overwrite an existing key in place, else append. -/
def mapSet (m : FieldMapping) (k : String) (v : Json) : FieldMapping :=
  if m.any (fun kv => kv.1 == k) then
    m.map (fun kv => if kv.1 == k then (k, v) else kv)
  else m ++ [(k, v)]

/-- Lines 82-85 of zkproof.js: `const fields = new Map();
entries.forEach(([field, value]) => fields.set(field, value))`. -/
def buildFields (entries : List (String × Json)) : FieldMapping :=
  entries.foldl (fun m kv => mapSet m kv.1 kv.2) []

/-- `Object.entries` of the host language, applied at line 83 of zkproof.js to
the value returned by JSON.parse.  Per ECMAScript semantics: a number or a
boolean is coerced to a wrapper object with no own enumerable properties
(entries are empty); a string is coerced to a String object whose entries are
index-character pairs; an array yields index-element pairs; an object yields
its key-value pairs; null cannot be converted to an object (TypeError). -/
def jsObjectEntries : Json → Option (List (String × Json))
  | .null => none
  | .bool _ => some []
  | .num _ => some []
  | .str s => some (s.data.enum.map (fun ic => (toString ic.1, Json.str ic.2.toString)))
  | .arr xs => some (xs.enum.map (fun ix => (toString ix.1, ix.2)))
  | .obj kvs => some kvs

/-- Circuit, as used by zkproof.js: `circuit.toCode()` is its canonical code
and `circuit.verify(fields)` evaluates its predicate on a field mapping. -/
structure Circuit where
  toCode : String
  verify : FieldMapping → Bool

/-- ZKCredential record: DID of the holder, purpose tag, commitment, and the
stored (pretend-encrypted) payload blob `credential`.  DIDs and commitments
are opaque, equality-comparable values, modelled as strings. -/
structure ZKCredential where
  did : String
  purpose : String
  commitment : String
  credential : String
deriving DecidableEq

/-- ZKProof, the artifact built at lines 27-31 of zkproof.js. -/
structure ZKProof where
  code : String
  proof : String
  commitment : String
deriving DecidableEq

/-- SignedZKProof: a proof body wrapped with a signature. -/
structure SignedZKProof where
  body : ZKProof
  signature : String
deriving DecidableEq

/-- Error taxonomy of the protocol.  zkproof.js throws plain `Error` values
with distinct messages; each constructor below corresponds to one failure
kind of the spec taxonomy and to one throw site or failing external call:
UnknownProver (getDID fails), CredentialNotFound (getZKCredential fails),
ProverMismatch (line 69), PurposeMismatch (line 72), CommitmentMismatch
(line 76), CircuitNotFound (getCircuit fails), CircuitCodeMismatch (line 24),
PayloadDecodeError (JSON.parse fails, line 81), SignatureRecoveryError
(spec taxonomy for signature recovery), JsTypeError (Object.entries applied
to null, line 83). -/
inductive ZKError where
  | UnknownProver
  | CredentialNotFound
  | ProverMismatch
  | PurposeMismatch
  | CommitmentMismatch
  | CircuitNotFound
  | CircuitCodeMismatch
  | PayloadDecodeError
  | SignatureRecoveryError
  | JsTypeError
deriving DecidableEq

/-- Environment of external capabilities imported by zkproof.js but defined
outside src/.  Modelled from the spec: `getDID` resolves an address to a DID
or fails with UnknownProver; `getZKCredential` looks a credential up by
(DID, purpose) or fails with CredentialNotFound; `getCircuit` looks a circuit
up by (purpose, code) or fails with CircuitNotFound; `decodePayload` is the
opaque decode boundary (Base64.decode followed by JSON.parse at line 81),
returning the parsed JSON value or failing on malformed input. -/
structure Env where
  getDID : String → Option String
  getZKCredential : String → String → Option ZKCredential
  getCircuit : String → String → Option Circuit
  decodePayload : String → Option Json

/-- Modelled from the spec: `didEqual` from ./did is structural (exact string)
equality of DIDs. -/
def didEqual (a b : String) : Bool := a == b

/-- Lines 17-32 of zkproof.js.  The awaited `callApi()` is a latency
simulation with no observable effect and is omitted.  The circuit must exist
and its canonical code must match the code provided; the returned proof
carries the given code, the stored credential blob verbatim, and the
credential commitment. -/
def generateZKProof (env : Env) (zkCred : ZKCredential) (code : String) :
    Except ZKError ZKProof :=
  match env.getCircuit zkCred.purpose code with
  | none => .error .CircuitNotFound
  | some circuit =>
    if code = circuit.toCode then
      .ok ⟨code, zkCred.credential, zkCred.commitment⟩
    else .error .CircuitCodeMismatch

/-- Lines 42-51 of zkproof.js: generate a proof body, then attach the
placeholder signature string. -/
def _generateSignedZKProof (env : Env) (zkCred : ZKCredential) (code : String) :
    Except ZKError SignedZKProof :=
  match generateZKProof env zkCred code with
  | .error e => .error e
  | .ok body => .ok ⟨body, "some_signature"⟩

/-- Lines 60-87 of zkproof.js, stage for stage in source order:
DID resolution, credential lookup, identity binding (line 68), purpose
binding (line 71), commitment binding (line 75), circuit resolution
(line 78), payload decode (line 81), field-map construction (lines 82-85)
and predicate evaluation (line 86). -/
def verifyZKProof (env : Env) (zkProof : ZKProof) (prover purpose : String) :
    Except ZKError Bool :=
  match env.getDID prover with
  | none => .error .UnknownProver
  | some did =>
    match env.getZKCredential did purpose with
    | none => .error .CredentialNotFound
    | some zkCred =>
      if didEqual zkCred.did did = true then
        if zkCred.purpose = purpose then
          if zkCred.commitment = zkProof.commitment then
            match env.getCircuit purpose zkProof.code with
            | none => .error .CircuitNotFound
            | some circuit =>
              match env.decodePayload zkProof.proof with
              | none => .error .PayloadDecodeError
              | some credObj =>
                match jsObjectEntries credObj with
                | none => .error .JsTypeError
                | some entries => .ok (circuit.verify (buildFields entries))
          else .error .CommitmentMismatch
        else .error .PurposeMismatch
      else .error .ProverMismatch

/-- Lines 96-100 of zkproof.js: the recovered address is the hard-coded
placeholder string, after which verification is delegated. -/
def _verifySignedZKProof (env : Env) (signed : SignedZKProof) (purpose : String) :
    Except ZKError Bool :=
  verifyZKProof env signed.body "some_recovered_address" purpose

/-! Concrete fixtures, used by witnesses and counterexamples. -/

/-- Circuit of the spec scenario: field `age` present and at least 18. -/
def circuitAge : Circuit :=
  ⟨"AGE_GTE_18", fun fields =>
    match mapGet fields "age" with
    | some (.num n) => decide (18 ≤ n)
    | _ => false⟩

/-- A circuit whose predicate holds exactly on the empty field mapping. -/
def circuitEmpty : Circuit := ⟨"EMPTY_OK", fun fields => fields.isEmpty⟩

/-- Credential of the spec scenario. -/
def cred1 : ZKCredential := ⟨"did1", "age-check", "C1", "blob1"⟩

/-- Same credential record with a different stored payload blob. -/
def cred1b : ZKCredential := ⟨"did1", "age-check", "C1", "blob1x"⟩

/-- DID resolver fixture: only address addr1 has a DID. -/
def wDID : String → Option String :=
  fun a => if a = "addr1" then some "did1" else none

/-- Credential store fixture, keyed loosely on the DID alone. -/
def wCred : String → String → Option ZKCredential :=
  fun d _ => if d = "did1" then some cred1 else none

/-- Credential store fixture differing from wCred only in the stored blob. -/
def wCredB : String → String → Option ZKCredential :=
  fun d _ => if d = "did1" then some cred1b else none

/-- Circuit registry fixture; the stale code STALE also resolves to the age
circuit, whose canonical code differs. -/
def wCirc : String → String → Option Circuit :=
  fun p c =>
    if p = "age-check" then
      if c = "AGE_GTE_18" ∨ c = "STALE" then some circuitAge
      else if c = "EMPTY_OK" then some circuitEmpty
      else none
    else none

/-- Decode fixture: blob1 is an object with age 25, blob10 is the bare JSON
number 7, blobs is the bare JSON string ab, everything else is malformed. -/
def wDec : String → Option Json :=
  fun s =>
    if s = "blob1" then some (.obj [("age", .num 25)])
    else if s = "blob10" then some (.num 7)
    else if s = "blobs" then some (.str "ab")
    else none

/-- The standard fixture environment. -/
def E : Env := ⟨wDID, wCred, wCirc, wDec⟩

/-- Same environment with the alternative credential store. -/
def Eb : Env := ⟨wDID, wCredB, wCirc, wDec⟩

/-- The proof generated from cred1 with the age circuit. -/
def proofGood : ZKProof := ⟨"AGE_GTE_18", "blob1", "C1"⟩

/-! Claim theorems. -/

/-- C4: when the registry lookup for (credential.purpose, code) succeeds and
the returned circuit reproduces the given code, generation succeeds and the
returned proof carries the given code, the stored blob, and the credential
commitment. -/
theorem generate_ok_of_code_match (env : Env) (cred : ZKCredential) (code : String)
    (circuit : Circuit) (hc : env.getCircuit cred.purpose code = some circuit)
    (hcode : circuit.toCode = code) :
    generateZKProof env cred code = .ok ⟨code, cred.credential, cred.commitment⟩ := by
  simp [generateZKProof, hc, hcode]

/-- Witness for C4 on the fixture environment. -/
theorem generate_ok_of_code_match_witness :
    generateZKProof E cred1 "AGE_GTE_18" = .ok ⟨"AGE_GTE_18", "blob1", "C1"⟩ :=
  generate_ok_of_code_match E cred1 "AGE_GTE_18" circuitAge rfl rfl

/-- C5: when the registry lookup succeeds but the given code differs from the
canonical code of the resolved circuit, generation fails with
CircuitCodeMismatch. -/
theorem generate_code_mismatch (env : Env) (cred : ZKCredential) (code : String)
    (circuit : Circuit) (hc : env.getCircuit cred.purpose code = some circuit)
    (hne : code ≠ circuit.toCode) :
    generateZKProof env cred code = .error .CircuitCodeMismatch := by
  simp [generateZKProof, hc, hne]

/-- Witness for C5: the stale code STALE resolves to the age circuit whose
canonical code is AGE_GTE_18. -/
theorem generate_code_mismatch_witness :
    generateZKProof E cred1 "STALE" = .error .CircuitCodeMismatch :=
  generate_code_mismatch E cred1 "STALE" circuitAge rfl (by decide)

/-- C8: generation performs no encoding of its own: whenever it succeeds, the
proof field of the result is the stored credential blob verbatim. -/
theorem generate_payload_verbatim (env : Env) (cred : ZKCredential) (code : String)
    (prf : ZKProof) (h : generateZKProof env cred code = .ok prf) :
    prf.proof = cred.credential := by
  unfold generateZKProof at h
  split at h
  · exact Except.noConfusion h
  · split at h
    · injection h with h2
      rw [← h2]
    · exact Except.noConfusion h

/-- Witness for C8 on the fixture environment. -/
theorem generate_payload_verbatim_witness : proofGood.proof = cred1.credential :=
  generate_payload_verbatim E cred1 "AGE_GTE_18" proofGood rfl

/-- C2: the eight verification stages run in the fixed source order and every
stage failure short-circuits all following stages.  Each conjunct fixes the
outcome of the call from the results of the earlier stages alone; since the
environment is universally quantified, a conjunct whose hypotheses do not
mention `getCircuit` or `decodePayload` shows that those capabilities are
never consulted on that path — in particular a purpose mismatch yields
PurposeMismatch for every possible circuit registry. -/
theorem verify_stage_order (env : Env) (zkProof : ZKProof) (prover purpose : String) :
    (env.getDID prover = none →
      verifyZKProof env zkProof prover purpose = .error .UnknownProver) ∧
    (∀ did, env.getDID prover = some did →
      env.getZKCredential did purpose = none →
      verifyZKProof env zkProof prover purpose = .error .CredentialNotFound) ∧
    (∀ did cred, env.getDID prover = some did →
      env.getZKCredential did purpose = some cred →
      didEqual cred.did did = false →
      verifyZKProof env zkProof prover purpose = .error .ProverMismatch) ∧
    (∀ did cred, env.getDID prover = some did →
      env.getZKCredential did purpose = some cred →
      didEqual cred.did did = true →
      cred.purpose ≠ purpose →
      verifyZKProof env zkProof prover purpose = .error .PurposeMismatch) ∧
    (∀ did cred, env.getDID prover = some did →
      env.getZKCredential did purpose = some cred →
      didEqual cred.did did = true →
      cred.purpose = purpose →
      cred.commitment ≠ zkProof.commitment →
      verifyZKProof env zkProof prover purpose = .error .CommitmentMismatch) ∧
    (∀ did cred, env.getDID prover = some did →
      env.getZKCredential did purpose = some cred →
      didEqual cred.did did = true →
      cred.purpose = purpose →
      cred.commitment = zkProof.commitment →
      env.getCircuit purpose zkProof.code = none →
      verifyZKProof env zkProof prover purpose = .error .CircuitNotFound) ∧
    (∀ did cred circuit, env.getDID prover = some did →
      env.getZKCredential did purpose = some cred →
      didEqual cred.did did = true →
      cred.purpose = purpose →
      cred.commitment = zkProof.commitment →
      env.getCircuit purpose zkProof.code = some circuit →
      env.decodePayload zkProof.proof = none →
      verifyZKProof env zkProof prover purpose = .error .PayloadDecodeError) ∧
    (∀ did cred circuit j entries, env.getDID prover = some did →
      env.getZKCredential did purpose = some cred →
      didEqual cred.did did = true →
      cred.purpose = purpose →
      cred.commitment = zkProof.commitment →
      env.getCircuit purpose zkProof.code = some circuit →
      env.decodePayload zkProof.proof = some j →
      jsObjectEntries j = some entries →
      verifyZKProof env zkProof prover purpose = .ok (circuit.verify (buildFields entries))) := by
  refine ⟨?_, ?_, ?_, ?_, ?_, ?_, ?_, ?_⟩
  · intro h1
    simp [verifyZKProof, h1]
  · intro did h1 h2
    simp [verifyZKProof, h1, h2]
  · intro did cred h1 h2 h3
    simp [verifyZKProof, h1, h2, h3]
  · intro did cred h1 h2 h3 h4
    simp [verifyZKProof, h1, h2, h3, h4]
  · intro did cred h1 h2 h3 h4 h5
    simp [verifyZKProof, h1, h2, h3, h4, h5]
  · intro did cred h1 h2 h3 h4 h5 h6
    simp [verifyZKProof, h1, h2, h3, h4, h5, h6]
  · intro did cred circuit h1 h2 h3 h4 h5 h6 h7
    simp [verifyZKProof, h1, h2, h3, h4, h5, h6, h7]
  · intro did cred circuit j entries h1 h2 h3 h4 h5 h6 h7 h8
    simp [verifyZKProof, h1, h2, h3, h4, h5, h6, h7, h8]

/-- Witness for C2: requesting purpose other than the credential purpose on
the fixture environment fails with PurposeMismatch, whatever the registry. -/
theorem verify_stage_order_witness :
    verifyZKProof E proofGood "addr1" "other" = .error .PurposeMismatch :=
  (verify_stage_order E proofGood "addr1" "other").2.2.2.1 "did1" cred1
    rfl rfl rfl (by decide)

/-- C3: whenever the first four stages pass but the credential commitment
differs from the proof commitment, verification fails with
CommitmentMismatch, for every possible field payload carried by the proof. -/
theorem verify_commitment_mismatch (env : Env) (zkProof : ZKProof)
    (prover purpose did : String) (cred : ZKCredential)
    (h1 : env.getDID prover = some did)
    (h2 : env.getZKCredential did purpose = some cred)
    (h3 : didEqual cred.did did = true)
    (h4 : cred.purpose = purpose)
    (h5 : cred.commitment ≠ zkProof.commitment) :
    verifyZKProof env zkProof prover purpose = .error .CommitmentMismatch := by
  simp [verifyZKProof, h1, h2, h3, h4, h5]

/-- Witness for C3: a proof carrying the satisfying payload blob1 but the
foreign commitment C2 is rejected with CommitmentMismatch even though its
decoded fields satisfy the age predicate. -/
theorem verify_commitment_mismatch_witness :
    verifyZKProof E ⟨"AGE_GTE_18", "blob1", "C2"⟩ "addr1" "age-check" =
      .error .CommitmentMismatch ∧
    circuitAge.verify (buildFields [("age", Json.num 25)]) = true :=
  ⟨verify_commitment_mismatch E ⟨"AGE_GTE_18", "blob1", "C2"⟩ "addr1" "age-check"
    "did1" cred1 rfl rfl rfl rfl (by decide), by rfl⟩

/-- C1: for every credential and code for which generation succeeds, and a
prover address resolving to the credential DID with the credential looked up
for that DID and purpose, verifying the generated proof returns exactly the
boolean the resolved circuit computes on the field mapping decoded from the
stored credential blob — the payload carried through Proof.proof reaches the
predicate unchanged. -/
theorem generate_verify_roundtrip (env : Env) (cred : ZKCredential)
    (code addr : String) (circuit : Circuit) (j : Json)
    (entries : List (String × Json))
    (hc : env.getCircuit cred.purpose code = some circuit)
    (hcode : circuit.toCode = code)
    (hd : env.getDID addr = some cred.did)
    (hl : env.getZKCredential cred.did cred.purpose = some cred)
    (hdec : env.decodePayload cred.credential = some j)
    (hent : jsObjectEntries j = some entries) :
    generateZKProof env cred code = .ok ⟨code, cred.credential, cred.commitment⟩ ∧
    verifyZKProof env ⟨code, cred.credential, cred.commitment⟩ addr cred.purpose =
      .ok (circuit.verify (buildFields entries)) := by
  constructor
  · simp [generateZKProof, hc, hcode]
  · simp [verifyZKProof, didEqual, hd, hl, hc, hdec, hent]

/-- Witness for C1 on the spec scenario: the generated proof verifies to true,
the value of the age predicate on the original mapping with age 25. -/
theorem generate_verify_roundtrip_witness :
    generateZKProof E cred1 "AGE_GTE_18" = .ok ⟨"AGE_GTE_18", "blob1", "C1"⟩ ∧
    verifyZKProof E ⟨"AGE_GTE_18", "blob1", "C1"⟩ "addr1" "age-check" = .ok true := by
  have h := generate_verify_roundtrip E cred1 "AGE_GTE_18" "addr1" circuitAge
    (Json.obj [("age", Json.num 25)]) [("age", Json.num 25)] rfl rfl rfl rfl rfl rfl
  exact ⟨h.1, h.2.trans (by rfl)⟩

/-- Agreement of two credential-store results on everything except the stored
payload blob: both lookups fail, or both return records with the same DID,
purpose and commitment. -/
def credsAgree : Option ZKCredential → Option ZKCredential → Prop
  | none, none => True
  | some c1, some c2 =>
      c1.did = c2.did ∧ c1.purpose = c2.purpose ∧ c1.commitment = c2.commitment
  | _, _ => False

/-- C6: verification never reports a violated precondition as the boolean
false.  First part: any boolean outcome certifies that every stage succeeded
and that the boolean is exactly the circuit predicate on the decoded fields.
Second part: an undecodable payload reached after the six earlier stages
fails with PayloadDecodeError, not with a false result. -/
theorem verify_no_silent_false :
    (∀ (env : Env) (p : ZKProof) (a pur : String) (b : Bool),
      verifyZKProof env p a pur = .ok b →
      ∃ did cred circuit j entries,
        env.getDID a = some did ∧
        env.getZKCredential did pur = some cred ∧
        didEqual cred.did did = true ∧
        cred.purpose = pur ∧
        cred.commitment = p.commitment ∧
        env.getCircuit pur p.code = some circuit ∧
        env.decodePayload p.proof = some j ∧
        jsObjectEntries j = some entries ∧
        b = circuit.verify (buildFields entries)) ∧
    (∀ (env : Env) (p : ZKProof) (a pur did : String) (cred : ZKCredential)
      (circuit : Circuit),
      env.getDID a = some did →
      env.getZKCredential did pur = some cred →
      didEqual cred.did did = true →
      cred.purpose = pur →
      cred.commitment = p.commitment →
      env.getCircuit pur p.code = some circuit →
      env.decodePayload p.proof = none →
      verifyZKProof env p a pur = .error .PayloadDecodeError) := by
  constructor
  · intro env p a pur b h
    unfold verifyZKProof at h
    split at h
    · exact Except.noConfusion h
    · rename_i did hdid
      split at h
      · exact Except.noConfusion h
      · rename_i cred hcred
        split at h
        · rename_i h3
          split at h
          · rename_i h4
            split at h
            · rename_i h5
              split at h
              · exact Except.noConfusion h
              · rename_i circuit hcirc
                split at h
                · exact Except.noConfusion h
                · rename_i j hj
                  split at h
                  · exact Except.noConfusion h
                  · rename_i entries hent
                    injection h with hb
                    subst hb
                    exact ⟨did, cred, circuit, j, entries, hdid, hcred, h3, h4,
                      h5, hcirc, hj, hent, rfl⟩
            · exact Except.noConfusion h
          · exact Except.noConfusion h
        · exact Except.noConfusion h
  · intro env p a pur did cred circuit h1 h2 h3 h4 h5 h6 h7
    simp [verifyZKProof, h1, h2, h3, h4, h5, h6, h7]

/-- Witness for C6: a proof whose payload is undecodable on the fixture
environment fails with PayloadDecodeError. -/
theorem verify_no_silent_false_witness :
    verifyZKProof E ⟨"AGE_GTE_18", "badblob", "C1"⟩ "addr1" "age-check" =
      .error .PayloadDecodeError :=
  verify_no_silent_false.2 E ⟨"AGE_GTE_18", "badblob", "C1"⟩ "addr1" "age-check"
    "did1" cred1 circuitAge rfl rfl rfl rfl rfl rfl rfl

/-- C9: the outcome of verification does not depend on the stored credential
payload blob.  Two environments with the same resolver, registry and decoder
whose credential stores agree up to the stored blob produce identical
outcomes for every proof, prover address and purpose. -/
theorem verify_ignores_stored_blob (e1 e2 : Env) (p : ZKProof) (a pur : String)
    (hdid : e1.getDID = e2.getDID)
    (hcirc : e1.getCircuit = e2.getCircuit)
    (hdec : e1.decodePayload = e2.decodePayload)
    (hcred : ∀ d q, credsAgree (e1.getZKCredential d q) (e2.getZKCredential d q)) :
    verifyZKProof e1 p a pur = verifyZKProof e2 p a pur := by
  unfold verifyZKProof
  rw [hdid, hcirc, hdec]
  cases hD : e2.getDID a with
  | none => rfl
  | some did =>
    have hc := hcred did pur
    cases h1 : e1.getZKCredential did pur with
    | none =>
      cases h2 : e2.getZKCredential did pur with
      | none => simp [h1, h2]
      | some c2 =>
        rw [h1, h2] at hc
        simp [credsAgree] at hc
    | some c1 =>
      cases h2 : e2.getZKCredential did pur with
      | none =>
        rw [h1, h2] at hc
        simp [credsAgree] at hc
      | some c2 =>
        rw [h1, h2] at hc
        obtain ⟨hld, hlp, hlc⟩ := hc
        simp [h1, h2, hld, hlp, hlc]

/-- Witness for C9: the fixture environments E and Eb differ only in the blob
stored for cred1 and verify the same proof identically. -/
theorem verify_ignores_stored_blob_witness :
    verifyZKProof E proofGood "addr1" "age-check" =
      verifyZKProof Eb proofGood "addr1" "age-check" := by
  refine verify_ignores_stored_blob E Eb proofGood "addr1" "age-check" rfl rfl rfl ?_
  intro d q
  by_cases hd : d = "did1"
  · simp [E, Eb, wCred, wCredB, hd, credsAgree, cred1, cred1b]
  · simp [E, Eb, wCred, wCredB, hd, credsAgree]

/-- A proof whose code addresses the empty-mapping circuit and whose payload
is the bare JSON string ab. -/
def proofStr : ZKProof := ⟨"EMPTY_OK", "blobs", "C1"⟩

/-- A proof whose code addresses the empty-mapping circuit and whose payload
is the bare JSON number 7. -/
def proofNum : ZKProof := ⟨"EMPTY_OK", "blob10", "C1"⟩

/-- C7 counterexample: on the fixture environment, verifying a signed proof
uses the hard-coded placeholder address, whose DID resolution fails, even
though verification with the actual prover address of the body succeeds; and
the outcome is identical for two different signature values, so no prover
address is recovered from the signature. -/
theorem verifySigned_placeholder_cex :
    _verifySignedZKProof E ⟨proofGood, "signature_by_addr1"⟩ "age-check" =
      .error .UnknownProver ∧
    verifyZKProof E proofGood "addr1" "age-check" = .ok true ∧
    _verifySignedZKProof E ⟨proofGood, "another_signature"⟩ "age-check" =
      _verifySignedZKProof E ⟨proofGood, "signature_by_addr1"⟩ "age-check" :=
  ⟨rfl, rfl, rfl⟩

/-- C7 amended: verifySigned does not recover an address from the signature;
it delegates to verify with the fixed placeholder address, and its outcome is
therefore independent of the signature value. -/
theorem verifySigned_uses_placeholder (env : Env) (body : ZKProof)
    (s1 s2 purpose : String) :
    _verifySignedZKProof env ⟨body, s1⟩ purpose =
      verifyZKProof env body "some_recovered_address" purpose ∧
    _verifySignedZKProof env ⟨body, s1⟩ purpose =
      _verifySignedZKProof env ⟨body, s2⟩ purpose :=
  ⟨rfl, rfl⟩

/-- C10 counterexample: the bare JSON string ab is a non-object scalar, yet
verification evaluates the predicate on the index-character mapping built by
Object.entries, not on the empty mapping: the empty-mapping circuit holds on
the empty mapping but the verification outcome is false. -/
theorem verify_scalar_payload_cex :
    E.decodePayload proofStr.proof = some (Json.str "ab") ∧
    verifyZKProof E proofStr "addr1" "age-check" = .ok false ∧
    circuitEmpty.verify [] = true :=
  ⟨rfl, rfl, rfl⟩

/-- C10 amended: for a payload that decodes to a JSON number or boolean,
verification does not fail at the decode stage: Object.entries of the wrapper
object is empty, so the predicate is evaluated on the empty field mapping.
A payload decoding to a string instead yields its index-character mapping,
and null makes Object.entries raise a TypeError. -/
theorem verify_scalar_payload_empty_fields (env : Env) (p : ZKProof)
    (a pur did : String) (cred : ZKCredential) (circuit : Circuit) (j : Json)
    (h1 : env.getDID a = some did)
    (h2 : env.getZKCredential did pur = some cred)
    (h3 : didEqual cred.did did = true)
    (h4 : cred.purpose = pur)
    (h5 : cred.commitment = p.commitment)
    (h6 : env.getCircuit pur p.code = some circuit)
    (h7 : env.decodePayload p.proof = some j)
    (h8 : (∃ n, j = Json.num n) ∨ (∃ b, j = Json.bool b)) :
    verifyZKProof env p a pur = .ok (circuit.verify []) := by
  rcases h8 with ⟨n, rfl⟩ | ⟨b, rfl⟩ <;>
    simp [verifyZKProof, h1, h2, h3, h4, h5, h6, h7, jsObjectEntries, buildFields]

/-- Witness for the amended C10: the payload blob10 decodes to the number 7
and the empty-mapping circuit accepts, because the field mapping is empty. -/
theorem verify_scalar_payload_empty_fields_witness :
    verifyZKProof E proofNum "addr1" "age-check" = .ok true :=
  (verify_scalar_payload_empty_fields E proofNum "addr1" "age-check" "did1" cred1
    circuitEmpty (Json.num 7) rfl rfl rfl rfl rfl rfl rfl (Or.inl ⟨7, rfl⟩)).trans
    (by rfl)
